import Mathlib

/-!
Verification development for the Microsoft Omnichannel SDK client
(src/SDK.ts).  The definitions below are a shallow embedding of the parts
of the SDK that govern retry policy, session state (auth nonce and session
affinity id), and promise settlement of the individual operations.  Where a
unit of code lives outside src/SDK.ts (the axios retry handler utilities,
the Constants and Enums modules), the corresponding definition is marked
"Modelled from the spec" and follows the specification text.
-/

namespace OmnichannelSDK

/-- JavaScript string truthiness for an optional string value: `undefined`
and the empty string are falsy, any other string is truthy. -/
def strTruthy : Option String → Bool
  | some s => !s.isEmpty
  | none => false

/-- Transport-level error as surfaced by axios: the error's name (axios
^1.8.2, pinned in package.json, raises AxiosError instances whose name is
"AxiosError"; a plain JavaScript Error has name "Error"), an optional
error code (for example the timeout code) and a message. -/
structure AxiosError where
  name : String
  code : Option String
  message : String
  deriving DecidableEq, Repr

/-- JavaScript `Error.prototype.toString()` on an error: the error's name
followed by a colon, a space and the message. -/
def errToString (e : AxiosError) : String :=
  e.name ++ ": " ++ e.message

/-- Modelled from the spec: `Constants.axiosTimeoutErrorCode` lives in
src/Common/Constants.ts which is not under src/; the spec only requires a
fixed transport-level timeout code distinct from other error codes. -/
def axiosTimeoutErrorCode : String := "ECONNABORTED"

/-- Modelled from the spec: `isExpectedAxiosError` lives in
src/Utils/isExpectedAxiosError.ts which is not under src/; per the spec a
timeout is classified distinctly from a generic network error, which the
SDK code does by comparing the transport error code against the expected
code. -/
def isExpectedAxiosError (e : AxiosError) (code : String) : Bool :=
  e.code == some code

/-- Modelled from the spec: `SDKError.ClientHTTPTimeoutErrorName` lives in
src/Common/Enums.ts which is not under src/; it is a fixed error name. -/
def ClientHTTPTimeoutErrorName : String := "ClientHTTPTimeoutError"

/-- Modelled from the spec: `SDKError.ClientHTTPTimeoutErrorMessage` lives
in src/Common/Enums.ts which is not under src/; it is a fixed user-facing
message. -/
def ClientHTTPTimeoutErrorMessage : String := "Client HTTP request timed out"

/-- SDK.ts line 88: the normalized user-facing timeout message, a template
string joining the error name and the error message with a colon. -/
def HTTPTimeOutErrorMessage : String :=
  ClientHTTPTimeoutErrorName ++ ": " ++ ClientHTTPTimeoutErrorMessage

/-- Modelled from the spec: `Constants.noContentStatusCode` lives in
src/Common/Constants.ts which is not under src/; the spec names HTTP 204
(no content). -/
def noContentStatusCode : Nat := 204

/-- Response headers the session-state commit reads: the nonce-rotation
header `authcodenonce` (SDK.ts line 1486) and the session-affinity header
(SDK.ts lines 381-385).  Each is optional on every response. -/
structure ResponseHeaders where
  authcodenonce : Option String
  ocSessionId : Option String
  deriving DecidableEq, Repr

/-- JavaScript `uuidv4().substring(0, 8)` (SDK.ts line 73): the first 8
characters of the generated value, written over the character list of the
string. -/
def firstEight (s : String) : String := ⟨s.data.take 8⟩

/-- Wait times between retries, keyed by operation
(`waitTimeBetweenRetriesConfigs`, the fields used by the embedded
operations). -/
structure WaitTimeBetweenRetriesConfig where
  getChatConfig : Nat
  getChatToken : Nat
  sessionInit : Nat
  deriving DecidableEq, Repr

/-- The SDK configuration record (ISDKConfiguration), restricted to the
fields the embedded operations read. -/
structure ISDKConfiguration where
  authCodeNonce : String
  getChatTokenRetryCount : Nat
  getChatTokenTimeBetweenRetriesOnFailure : Nat
  getChatTokenRetryOn429 : Bool
  maxRequestRetriesOnFailure : Nat
  useUnauthReconnectIdSigQueryParam : Bool
  waitTimeBetweenRetriesConfig : WaitTimeBetweenRetriesConfig
  deriving DecidableEq, Repr

/-- Modelled from the spec: the `waitTimeBetweenRetriesConfigs` default
table lives in src/Utils/waitTimeBetweenRetriesConfigs.ts which is not
under src/; per the spec each operation has a fixed non-negative delay. -/
def waitTimeBetweenRetriesConfigs : WaitTimeBetweenRetriesConfig :=
  { getChatConfig := 1000, getChatToken := 1000, sessionInit := 1000 }

/-- SDK.ts lines 72-83: the static default configuration.  Its
`authCodeNonce` field is the first 8 characters of the uuid generated at
the moment the class body is evaluated (class load), passed in here as
`nonce`. -/
def defaultConfigurationData (nonce : String) : ISDKConfiguration :=
  { authCodeNonce := nonce
    getChatTokenRetryCount := 10
    getChatTokenTimeBetweenRetriesOnFailure := 10000
    getChatTokenRetryOn429 := true
    maxRequestRetriesOnFailure := 5
    useUnauthReconnectIdSigQueryParam := false
    waitTimeBetweenRetriesConfig := waitTimeBetweenRetriesConfigs }

/-- Caller-supplied configuration object: every field is optional, since
JavaScript callers may pass any subset of the keys.  An object with no
keys at all models `{}`. -/
structure ConfigOverrides where
  authCodeNonce : Option String
  getChatTokenRetryCount : Option Nat
  getChatTokenTimeBetweenRetriesOnFailure : Option Nat
  getChatTokenRetryOn429 : Option Bool
  maxRequestRetriesOnFailure : Option Nat
  useUnauthReconnectIdSigQueryParam : Option Bool
  waitTimeBetweenRetriesConfig : Option WaitTimeBetweenRetriesConfig
  deriving DecidableEq, Repr

/-- JavaScript `Object.keys(configuration).length` being zero: the passed
object has no keys at all. -/
def ConfigOverrides.isEmpty (c : ConfigOverrides) : Bool :=
  c.authCodeNonce.isNone && c.getChatTokenRetryCount.isNone &&
  c.getChatTokenTimeBetweenRetriesOnFailure.isNone &&
  c.getChatTokenRetryOn429.isNone && c.maxRequestRetriesOnFailure.isNone &&
  c.useUnauthReconnectIdSigQueryParam.isNone &&
  c.waitTimeBetweenRetriesConfig.isNone

/-- SDK.ts lines 98-102: every key of the default configuration missing
from the caller-supplied object is copied (by value) from the default. -/
def ConfigOverrides.fill (c : ConfigOverrides) (d : ISDKConfiguration) :
    ISDKConfiguration :=
  { authCodeNonce := c.authCodeNonce.getD d.authCodeNonce
    getChatTokenRetryCount := c.getChatTokenRetryCount.getD d.getChatTokenRetryCount
    getChatTokenTimeBetweenRetriesOnFailure :=
      c.getChatTokenTimeBetweenRetriesOnFailure.getD d.getChatTokenTimeBetweenRetriesOnFailure
    getChatTokenRetryOn429 := c.getChatTokenRetryOn429.getD d.getChatTokenRetryOn429
    maxRequestRetriesOnFailure := c.maxRequestRetriesOnFailure.getD d.maxRequestRetriesOnFailure
    useUnauthReconnectIdSigQueryParam :=
      c.useUnauthReconnectIdSigQueryParam.getD d.useUnauthReconnectIdSigQueryParam
    waitTimeBetweenRetriesConfig :=
      c.waitTimeBetweenRetriesConfig.getD d.waitTimeBetweenRetriesConfig }

/-- The constructor argument for the `configuration` parameter.  `omitted`
models calling the constructor without a configuration (the default
parameter `SDK.defaultConfiguration` is used); `nonObject` models passing
a value for which `typeof configuration` is not "object"; `given` models
passing a configuration object. -/
inductive ConfigArg where
  | omitted
  | nonObject
  | given (c : ConfigOverrides)

/-- Process-wide state of the loaded SDK module: a heap of configuration
objects addressed by reference (JavaScript objects are aliased, not
copied), the reference of the shared static `SDK.defaultConfiguration`
object, and the index of the next fresh uuid the generator would
produce. -/
structure ModuleState where
  store : Nat → ISDKConfiguration
  next : Nat
  defaultRef : Nat
  uuidIndex : Nat

/-- One constructed SDK instance: the reference of the configuration
object it holds (possibly aliasing the shared static default), and its
per-instance `sessionId` field. -/
structure SDKInstance where
  configRef : Nat
  sessionId : Option String
  deriving DecidableEq, Repr

/-- Evaluation of the SDK class body (class load): the static
`defaultConfiguration` is allocated once, with `authCodeNonce` seeded from
`uuidv4().substring(0, 8)` where `g` enumerates the outputs of the uuid
generator; `g 0` is consumed here (SDK.ts line 73). -/
def moduleLoad (g : Nat → String) : ModuleState :=
  { store := fun _ => defaultConfigurationData (firstEight (g 0))
    next := 1
    defaultRef := 0
    uuidIndex := 1 }

/-- SDK.ts lines 91-109: the constructor.  When the configuration argument
is omitted, is not an object, or is an object with no keys, the instance
holds a reference to the shared static default configuration object
(aliasing, SDK.ts lines 91-95).  Otherwise the caller-supplied object is
kept and its missing keys are filled by value from the default (SDK.ts
lines 98-102).  The constructor never generates a uuid. -/
def construct (st : ModuleState) (arg : ConfigArg) : ModuleState × SDKInstance :=
  match arg with
  | .omitted => (st, { configRef := st.defaultRef, sessionId := none })
  | .nonObject => (st, { configRef := st.defaultRef, sessionId := none })
  | .given c =>
    if c.isEmpty then
      (st, { configRef := st.defaultRef, sessionId := none })
    else
      let merged := c.fill (st.store st.defaultRef)
      ({ st with store := Function.update st.store st.next merged, next := st.next + 1 },
       { configRef := st.next, sessionId := none })

/-- Read of the configuration object an instance holds (through its
reference into the heap). -/
def readConfig (st : ModuleState) (inst : SDKInstance) : ISDKConfiguration :=
  st.store inst.configRef

/-- Read of `this.configuration.authCodeNonce`, the nonce presented in the
`authcodenonce` request header of authenticated calls. -/
def readNonce (st : ModuleState) (inst : SDKInstance) : String :=
  (readConfig st inst).authCodeNonce

/-- SDK.ts lines 1485-1489: `setAuthCodeNonce`.  When the response headers
are present and carry a truthy `authcodenonce` value, that value
overwrites `this.configuration.authCodeNonce` (a write through the
instance's configuration reference); otherwise nothing changes. -/
def setAuthCodeNonce (st : ModuleState) (inst : SDKInstance)
    (headers : Option ResponseHeaders) : ModuleState :=
  match headers with
  | none => st
  | some hd =>
    match hd.authcodenonce with
    | none => st
    | some s =>
      if s.isEmpty then st
      else
        let rotated := { st.store inst.configRef with authCodeNonce := s }
        { st with store := Function.update st.store inst.configRef rotated }

/-- SDK.ts lines 379-385 (the session-state commit performed by the
getChatToken success handler): rotate the nonce via `setAuthCodeNonce`,
then overwrite `this.sessionId` when the response carries a truthy
session-affinity header. -/
def commitResponseHeaders (st : ModuleState) (inst : SDKInstance)
    (headers : Option ResponseHeaders) : ModuleState × SDKInstance :=
  let st' := setAuthCodeNonce st inst headers
  let inst' :=
    match headers with
    | none => inst
    | some hd =>
      match hd.ocSessionId with
      | none => inst
      | some sid => if sid.isEmpty then inst else { inst with sessionId := some sid }
  (st', inst')

/-- Modelled from the spec: the classified outcome of one attempt
(src/Utils/axiosRetryHandler.ts is not under src/).  Spec section 3:
Timeout, NetworkError, an HTTP status failure (RetryableServerError for
5xx or configured 429, NonRetryableClientError otherwise), and
EmptyResponse. -/
inductive Failure where
  | timeout
  | networkError
  | httpStatus (code : Nat)
  | emptyResponse
  deriving DecidableEq, Repr

/-- Modelled from the spec: the per-operation retry policy
(src/Utils/axiosRetryHandler.ts is not under src/).  Spec section 3:
maxAttempts, a constant backoff, retryOn429, the header-overwrite list,
and an optional shouldRetry predicate overriding the default
classification. -/
structure RetryPolicy where
  maxAttempts : Nat
  backoffMillis : Nat
  retryOn429 : Bool
  headerOverwrites : List String
  shouldRetry : Option (Failure → Bool)

/-- Modelled from the spec: the default retryable-failure classification
(spec section 4.1): retry on Timeout, NetworkError and
RetryableServerError (5xx); retry on HTTP 429 only when retryOn429 is
true; never retry NonRetryableClientError or EmptyResponse. -/
def defaultClassification (retryOn429 : Bool) : Failure → Bool
  | .timeout => true
  | .networkError => true
  | .httpStatus code =>
    if code == 429 then retryOn429 else decide (500 ≤ code ∧ code < 600)
  | .emptyResponse => false

/-- Modelled from the spec: the retry verdict of the Retry Policy Engine
(spec section 4.1): retrying stops once the attempt number reaches
maxAttempts regardless of classification; below the ceiling the custom
shouldRetry predicate, when supplied, overrides the default
classification. -/
def evaluateRetry (policy : RetryPolicy) (attemptNumber : Nat) (f : Failure) : Bool :=
  if policy.maxAttempts ≤ attemptNumber then false
  else
    match policy.shouldRetry with
    | some p => p f
    | none => defaultClassification policy.retryOn429 f

/-- Outcome of one physical attempt as seen by the retry layer: transport
success (any response delivered) or a classified failure. -/
inductive AttemptOutcome where
  | success
  | failure (f : Failure)
  deriving DecidableEq, Repr

/-- Terminal result of the dispatcher loop for one logical call. -/
inductive CallResult where
  | succeeded
  | failed (f : Failure)
  deriving DecidableEq, Repr

/-- Modelled from the spec: the dispatcher attempt loop (spec sections 4.2
and its state machine): given the outcome of every attempt index, run from
the given attempt number; on failure consult the Retry Policy Engine and
either move to the next attempt or stop with the classified failure.
Returns the terminal result together with the total number of attempts
dispatched. -/
def dispatchLoop (policy : RetryPolicy) (outcomes : Nat → AttemptOutcome)
    (attemptNumber : Nat) : CallResult × Nat :=
  match outcomes attemptNumber with
  | .success => (.succeeded, attemptNumber + 1)
  | .failure f =>
    if h : evaluateRetry policy attemptNumber f = true then
      dispatchLoop policy outcomes (attemptNumber + 1)
    else (.failed f, attemptNumber + 1)
termination_by policy.maxAttempts - attemptNumber
decreasing_by
  have hlt : attemptNumber < policy.maxAttempts := by
    by_contra hge
    have hfalse : evaluateRetry policy attemptNumber f = false := by
      unfold evaluateRetry
      simp [Nat.le_of_not_lt hge]
    simp [hfalse] at h
  omega

/-- SDK.ts lines 366-372: the retry count configured for getChatToken is
the larger of the caller-provided currentRetryCount and the configured
maxRequestRetriesOnFailure, and retryOn429 comes from the
getChatTokenRetryOn429 field; the nonce header is refreshed between
attempts. -/
def getChatTokenRetryPolicy (cfg : ISDKConfiguration) (currentRetryCount : Nat) :
    RetryPolicy :=
  { maxAttempts :=
      if currentRetryCount > cfg.maxRequestRetriesOnFailure then currentRetryCount
      else cfg.maxRequestRetriesOnFailure
    backoffMillis := cfg.waitTimeBetweenRetriesConfig.getChatToken
    retryOn429 := cfg.getChatTokenRetryOn429
    headerOverwrites := ["authcodenonce"]
    shouldRetry := none }

/-- Modelled from the spec: sessionInitRetryHandler
(src/Utils/SessionInitRetryHandler.ts is not under src/): the custom
shouldRetry predicate used by sessionInit and createConversation, invoked
with retryOn429 hardcoded to true (SDK.ts lines 637-643 and 739-745), so
it retries the default retryable classes and HTTP 429. -/
def sessionInitRetryHandler (retryOn429 : Bool) (f : Failure) : Bool :=
  defaultClassification retryOn429 f

/-- SDK.ts lines 638-643: the retry policy sessionInit installs on its
axios instance: maxRequestRetriesOnFailure attempts, the sessionInit wait
time, the custom sessionInitRetryHandler predicate with retryOn429 true,
and nonce-header refresh. -/
def sessionInitRetryPolicy (cfg : ISDKConfiguration) : RetryPolicy :=
  { maxAttempts := cfg.maxRequestRetriesOnFailure
    backoffMillis := cfg.waitTimeBetweenRetriesConfig.sessionInit
    retryOn429 := false
    headerOverwrites := ["authcodenonce"]
    shouldRetry := some (sessionInitRetryHandler true) }

/-- Settlement of an operation's promise: the value it resolves with or
the value it rejects with (first settlement wins; code paths that call
reject and then fall through to a second reject surface the first). -/
inductive Settlement where
  | resolvedData (keys : List String)
  | resolvedEmpty
  | rejectedError (msg : String)
  | rejectedResponse (status : Nat)
  | rejectedRaw (e : AxiosError)
  deriving DecidableEq, Repr

/-- Whether a settlement is a resolution (success) rather than a
rejection. -/
def Settlement.isSuccess : Settlement → Bool
  | .resolvedData _ => true
  | .resolvedEmpty => true
  | _ => false

/-- JavaScript `data.requestId = requestId` on an object modelled by its
key list: the key "requestId" is added when absent. -/
def setRequestIdKey (keys : List String) : List String :=
  if "requestId" ∈ keys then keys else keys ++ ["requestId"]

/-- Response of a completed (non-throwing) axios call as consumed by the
getChatToken success handler: the HTTP status, the body modelled by its
key list when the body is truthy (none models a falsy body such as the
empty string of a no-content response), and the headers. -/
structure GCTResponse where
  status : Nat
  dataKeys : Option (List String)
  headers : Option ResponseHeaders
  deriving DecidableEq, Repr

/-- SDK.ts lines 386-406: the settlement decision of the getChatToken
success handler.  A truthy body with no keys rejects with the empty-data
error; a truthy body with keys gets requestId set and resolves; a falsy
body with a truthy reconnectId and status 204 rejects with the raw
response; otherwise the handler returns without settling (the promise
stays pending forever), which the result none models. -/
def getChatTokenSettle (reconnectId : Option String) (r : GCTResponse) :
    Option Settlement :=
  match r.dataKeys with
  | some keys =>
    if keys.length = 0 then
      some (.rejectedError "Empty data received from getChatToken")
    else
      some (.resolvedData (setRequestIdKey keys))
  | none =>
    if strTruthy reconnectId && r.status == noContentStatusCode then
      some (.rejectedResponse r.status)
    else
      none

/-- SDK.ts lines 408-415: the getChatToken catch handler: a transport
timeout rejects with the fixed HTTPTimeOutErrorMessage (the first
settlement wins over the fall-through reject of the raw error); any other
error rejects with the raw error. -/
def getChatTokenCatch (e : AxiosError) : Settlement :=
  if isExpectedAxiosError e axiosTimeoutErrorCode then
    .rejectedError HTTPTimeOutErrorMessage
  else
    .rejectedRaw e

/-- SDK.ts lines 210-214: the getChatConfig catch handler rejects with the
raw error unconditionally; it performs no timeout normalization. -/
def getChatConfigCatch (e : AxiosError) : Settlement :=
  .rejectedRaw e

/-- SDK.ts lines 157-161: the getLcwFcsDetails catch handler rethrows the
raw error unconditionally; it performs no timeout normalization. -/
def getLcwFcsDetailsCatch (e : AxiosError) : Settlement :=
  .rejectedRaw e

/-- SDK.ts lines 723-731: the sessionInit catch handler: timeout rejects
with the fixed message, otherwise the raw error. -/
def sessionInitCatch (e : AxiosError) : Settlement :=
  if isExpectedAxiosError e axiosTimeoutErrorCode then
    .rejectedError HTTPTimeOutErrorMessage
  else
    .rejectedRaw e

/-- SDK.ts lines 824-832: the createConversation catch handler: timeout
throws the fixed message, otherwise the caught error is rethrown. -/
def createConversationCatch (e : AxiosError) : Settlement :=
  if isExpectedAxiosError e axiosTimeoutErrorCode then
    .rejectedError HTTPTimeOutErrorMessage
  else
    .rejectedRaw e

/-- SDK.ts lines 895-901: the sessionClose catch handler compares the
error code directly against the timeout code; timeout rejects with the
fixed message, otherwise the raw error. -/
def sessionCloseCatch (e : AxiosError) : Settlement :=
  if e.code == some axiosTimeoutErrorCode then
    .rejectedError HTTPTimeOutErrorMessage
  else
    .rejectedRaw e

/-- SDK.ts lines 816-823: the createConversation success path: when the
body has no keys an empty-data error is thrown (the catch handler then
rethrows it unchanged, since a plain Error carries no timeout code);
otherwise requestId is set on the body and it is returned.  An axios
response with an empty string body also reaches the zero-keys branch,
since Object.keys of the empty string is the empty array. -/
def createConversationSettle (keys : List String) : Settlement :=
  if keys.length = 0 then
    .rejectedError "Empty data received from getChatToken"
  else
    .resolvedData (setRequestIdKey keys)

/-- SDK.ts lines 946-956: the validateAuthChatRecord success path: when
the body's authChatExist field is true the body resolves, otherwise the
promise rejects with the fixed not-found error. -/
def validateAuthChatRecordSettle (keys : List String)
    (authChatExist : Option Bool) : Settlement :=
  if authChatExist == some true then
    .resolvedData keys
  else
    .rejectedError "Validate Auth Chat Record Failed. Record is not found or request is not authorized"

/-- SDK.ts lines 958-973: the validateAuthChatRecord catch handler: a
transport timeout rejects first with the fixed message; otherwise an error
whose toString equals the axios 404 message resolves with the empty object
(the backward-compatibility carve-out); every other error rejects raw. -/
def validateAuthChatRecordCatch (e : AxiosError) : Settlement :=
  if isExpectedAxiosError e axiosTimeoutErrorCode then
    .rejectedError HTTPTimeOutErrorMessage
  else if errToString e == "Error: Request failed with status code 404" then
    .resolvedEmpty
  else
    .rejectedRaw e

/-- Retryable classification of a failure under a policy: the custom
shouldRetry predicate when supplied, the default classification
otherwise. -/
def retryableUnder (policy : RetryPolicy) (f : Failure) : Bool :=
  (policy.shouldRetry.getD (defaultClassification policy.retryOn429)) f

/-- Concrete retry policy used to witness the retry-ceiling theorem:
maxAttempts 2 with the default classification. -/
def ceilingWitnessPolicy : RetryPolicy :=
  { maxAttempts := 2
    backoffMillis := 10000
    retryOn429 := true
    headerOverwrites := ["authcodenonce"]
    shouldRetry := none }

/-- Concrete retry policy with retryOn429 false, used to witness the 429
theorem. -/
def no429WitnessPolicy : RetryPolicy :=
  { maxAttempts := 5
    backoffMillis := 1000
    retryOn429 := false
    headerOverwrites := ["authcodenonce"]
    shouldRetry := none }

/-- Concrete reconnect-flavored no-content response: HTTP 204 with a falsy
body. -/
def noContentReconnectResponse : GCTResponse :=
  { status := 204, dataKeys := none, headers := none }

/-- Concrete successful response with a falsy body and a status other than
204. -/
def falsyBodyOkResponse : GCTResponse :=
  { status := 200, dataKeys := none, headers := none }

/-- Concrete 200 response whose body is the empty object. -/
def emptyObjectOkResponse : GCTResponse :=
  { status := 200, dataKeys := some [], headers := none }

/-- Concrete transport timeout error as axios 1.x raises it: an AxiosError
with the timeout code. -/
def rawTimeoutTransportError : AxiosError :=
  { name := "AxiosError"
    code := some axiosTimeoutErrorCode
    message := "timeout of 120000ms exceeded" }

/-- Concrete axios 404 error as the pinned axios ^1.8.2 raises it on an
HTTP 404 response: an AxiosError instance, so its name is "AxiosError" and
its code is ERR_BAD_REQUEST. -/
def http404TransportError : AxiosError :=
  { name := "AxiosError"
    code := some "ERR_BAD_REQUEST"
    message := "Request failed with status code 404" }

/-- Concrete uuid generator stream whose successive outputs are
distinguishable by their first 8 characters. -/
def uuidStreamC8 : Nat → String :=
  fun n => if n = 0 then "aaaaaaaa-0000-4000-8000-000000000000"
           else "bbbbbbbb-0000-4000-8000-000000000000"

/-- Definition following the spec's words, for comparison with the code:
"authNonce seeded at SDK construction from a locally generated random
token (first 8 characters of a random UUID-like value)".  A
construction-time generation would consume the next unconsumed uuid of
the stream, so the seeded nonce would be the first 8 characters of
g applied to the current uuidIndex. -/
def specConstructionSeededNonce (st : ModuleState) (g : Nat → String) : String :=
  firstEight (g st.uuidIndex)

/-- ConfigOverrides with no keys at all, modelling the empty object. -/
def emptyOverrides : ConfigOverrides :=
  { authCodeNonce := none
    getChatTokenRetryCount := none
    getChatTokenTimeBetweenRetriesOnFailure := none
    getChatTokenRetryOn429 := none
    maxRequestRetriesOnFailure := none
    useUnauthReconnectIdSigQueryParam := none
    waitTimeBetweenRetriesConfig := none }

theorem evaluateRetry_eq (policy : RetryPolicy) (k : Nat) (f : Failure) :
    evaluateRetry policy k f =
      (decide (k < policy.maxAttempts) && retryableUnder policy f) := by
  unfold evaluateRetry retryableUnder
  by_cases h : policy.maxAttempts ≤ k
  · simp [h, Nat.not_lt.mpr h]
  · cases hs : policy.shouldRetry <;>
      simp [h, Nat.lt_of_not_le h, hs]

theorem dispatchLoop_exhausts (policy : RetryPolicy)
    (outcomes : Nat → AttemptOutcome) (f : Failure)
    (hall : ∀ k, outcomes k = .failure f)
    (hret : retryableUnder policy f = true) :
    ∀ d k, policy.maxAttempts - k = d → k ≤ policy.maxAttempts →
      dispatchLoop policy outcomes k = (.failed f, policy.maxAttempts + 1) := by
  intro d
  induction d with
  | zero =>
    intro k hd hk
    have hke : k = policy.maxAttempts := by omega
    subst hke
    have hev : evaluateRetry policy policy.maxAttempts f = false := by
      rw [evaluateRetry_eq]
      simp
    rw [dispatchLoop, hall policy.maxAttempts]
    simp [hev]
  | succ d ih =>
    intro k hd hk
    have hklt : k < policy.maxAttempts := by omega
    have hev : evaluateRetry policy k f = true := by
      rw [evaluateRetry_eq]
      simp [hklt, hret]
    rw [dispatchLoop, hall k]
    simp only [hev, dite_true]
    exact ih (k + 1) (by omega) (by omega)

/-- Claim C1: for every retry policy with maxAttempts n and a sequence of
consecutive retryable failures on every attempt, the dispatcher stops
after exactly n retries (n + 1 attempts in total) with a Failed outcome,
and at attempt number n the engine refuses to retry regardless of how the
failure is classified (hard ceiling). -/
theorem retry_engine_hard_ceiling (policy : RetryPolicy)
    (outcomes : Nat → AttemptOutcome) (f : Failure) (n : Nat)
    (hmax : policy.maxAttempts = n)
    (hall : ∀ k, outcomes k = .failure f)
    (hret : retryableUnder policy f = true) :
    dispatchLoop policy outcomes 0 = (.failed f, n + 1) ∧
    ∀ g : Failure, evaluateRetry policy n g = false := by
  constructor
  · have := dispatchLoop_exhausts policy outcomes f hall hret
      policy.maxAttempts 0 rfl (Nat.zero_le _)
    rw [hmax] at this
    exact this
  · intro g
    rw [evaluateRetry_eq]
    simp [hmax]

/-- Witness for claim C1 at a concrete policy with maxAttempts 2 and three
consecutive network-error failures: two retries, three attempts, final
Failed outcome. -/
theorem retry_engine_hard_ceiling_witness :
    dispatchLoop ceilingWitnessPolicy (fun _ => .failure .networkError) 0 =
      (.failed .networkError, 3) ∧
    ∀ g : Failure, evaluateRetry ceilingWitnessPolicy 2 g = false :=
  retry_engine_hard_ceiling ceilingWitnessPolicy
    (fun _ => .failure .networkError) .networkError 2 rfl (fun _ => rfl) rfl

/-- Claim C2 counterexample: a reconnect-flavored getChatToken call whose
response is HTTP 204 with a falsy body settles as a rejection carrying the
raw response, not as an empty or void success, so the claim that it
resolves as a success is false at this input. -/
theorem reconnect_204_counterexample :
    getChatTokenSettle (some "reconnect-id") noContentReconnectResponse =
      some (.rejectedResponse 204) ∧
    Settlement.isSuccess (.rejectedResponse 204) = false := by
  exact ⟨rfl, rfl⟩

/-- Claim C2 (amended): for every reconnect-flavored getChatToken call
(truthy reconnectId) whose response has status 204 and a falsy body, the
promise settles immediately by rejecting with the raw response (a
terminal negative result, not a success), and a delivered response never
triggers the retry engine (a transport success ends the dispatcher loop at
once). -/
theorem reconnect_204_rejects_response (reconnectId : Option String)
    (r : GCTResponse)
    (hrc : strTruthy reconnectId = true)
    (hdata : r.dataKeys = none)
    (hst : r.status = 204) :
    getChatTokenSettle reconnectId r = some (.rejectedResponse 204) ∧
    (∀ (policy : RetryPolicy) (outcomes : Nat → AttemptOutcome) (k : Nat),
      outcomes k = .success →
      dispatchLoop policy outcomes k = (.succeeded, k + 1)) := by
  constructor
  · simp [getChatTokenSettle, hdata, hrc, hst, noContentStatusCode]
  · intro policy outcomes k hk
    rw [dispatchLoop, hk]

/-- Witness for claim C2 (amended) at the concrete no-content reconnect
response. -/
theorem reconnect_204_rejects_response_witness :
    getChatTokenSettle (some "rc") noContentReconnectResponse =
      some (.rejectedResponse 204) ∧
    (∀ (policy : RetryPolicy) (outcomes : Nat → AttemptOutcome) (k : Nat),
      outcomes k = .success →
      dispatchLoop policy outcomes k = (.succeeded, k + 1)) :=
  reconnect_204_rejects_response (some "rc") noContentReconnectResponse
    rfl rfl rfl

/-- Claim C3: the session-state commit overwrites only fields present in
the response: committing a fresh truthy authcodenonce makes the very next
read observe that nonce, while a commit whose headers carry no
nonce-rotation header and no session-affinity header changes neither the
configuration heap nor the instance, and a commit with no headers at all
changes nothing either. -/
theorem commit_only_overwrites_present_fields (st : ModuleState)
    (inst : SDKInstance) (X : String) (hx : X.isEmpty = false) :
    readNonce
      (commitResponseHeaders st inst
        (some { authcodenonce := some X, ocSessionId := none })).1
      (commitResponseHeaders st inst
        (some { authcodenonce := some X, ocSessionId := none })).2 = X ∧
    commitResponseHeaders st inst
      (some { authcodenonce := none, ocSessionId := none }) = (st, inst) ∧
    commitResponseHeaders st inst none = (st, inst) := by
  refine ⟨?_, rfl, rfl⟩
  simp [commitResponseHeaders, setAuthCodeNonce, readNonce, readConfig, hx]

/-- Witness for claim C3 at a concrete module state, instance and fresh
nonce. -/
theorem commit_only_overwrites_present_fields_witness :
    readNonce
      (commitResponseHeaders (moduleLoad uuidStreamC8)
        { configRef := 0, sessionId := none }
        (some { authcodenonce := some "fresh123", ocSessionId := none })).1
      (commitResponseHeaders (moduleLoad uuidStreamC8)
        { configRef := 0, sessionId := none }
        (some { authcodenonce := some "fresh123", ocSessionId := none })).2 =
      "fresh123" ∧
    commitResponseHeaders (moduleLoad uuidStreamC8)
      { configRef := 0, sessionId := none }
      (some { authcodenonce := none, ocSessionId := none }) =
      (moduleLoad uuidStreamC8, { configRef := 0, sessionId := none }) ∧
    commitResponseHeaders (moduleLoad uuidStreamC8)
      { configRef := 0, sessionId := none } none =
      (moduleLoad uuidStreamC8, { configRef := 0, sessionId := none }) :=
  commit_only_overwrites_present_fields (moduleLoad uuidStreamC8)
    { configRef := 0, sessionId := none } "fresh123" rfl

/-- Claim C4: under the default classification an HTTP 429 failure is
retried exactly when the policy sets retryOn429 and budget remains, so a
policy with retryOn429 false never retries a 429 (the dispatcher stops at
once); getChatToken takes retryOn429 from the getChatTokenRetryOn429
configuration field, and the custom sessionInit and createConversation
predicate invoked with retryOn429 true does retry a 429. -/
theorem retryOn429_governs_429 (policy : RetryPolicy) (k : Nat)
    (outcomes : Nat → AttemptOutcome) (cfg : ISDKConfiguration)
    (currentRetryCount : Nat)
    (hsr : policy.shouldRetry = none)
    (hout : outcomes k = .failure (.httpStatus 429)) :
    evaluateRetry policy k (.httpStatus 429) =
      (policy.retryOn429 && decide (k < policy.maxAttempts)) ∧
    (policy.retryOn429 = false →
      dispatchLoop policy outcomes k = (.failed (.httpStatus 429), k + 1)) ∧
    (getChatTokenRetryPolicy cfg currentRetryCount).retryOn429 =
      cfg.getChatTokenRetryOn429 ∧
    sessionInitRetryHandler true (.httpStatus 429) = true := by
  have hc : retryableUnder policy (.httpStatus 429) = policy.retryOn429 := by
    simp [retryableUnder, hsr, defaultClassification]
  refine ⟨?_, ?_, rfl, rfl⟩
  · rw [evaluateRetry_eq, hc, Bool.and_comm]
  · intro h429
    have hev : evaluateRetry policy k (.httpStatus 429) = false := by
      rw [evaluateRetry_eq, hc, h429]
      simp
    rw [dispatchLoop, hout]
    simp [hev]

/-- Witness for claim C4 at a concrete policy with retryOn429 false and a
429 failure on the first attempt. -/
theorem retryOn429_governs_429_witness :
    evaluateRetry no429WitnessPolicy 0 (.httpStatus 429) =
      (no429WitnessPolicy.retryOn429 &&
        decide (0 < no429WitnessPolicy.maxAttempts)) ∧
    (no429WitnessPolicy.retryOn429 = false →
      dispatchLoop no429WitnessPolicy (fun _ => .failure (.httpStatus 429)) 0 =
        (.failed (.httpStatus 429), 1)) ∧
    (getChatTokenRetryPolicy
        (defaultConfigurationData "seed1234") 0).retryOn429 =
      (defaultConfigurationData "seed1234").getChatTokenRetryOn429 ∧
    sessionInitRetryHandler true (.httpStatus 429) = true :=
  retryOn429_governs_429 no429WitnessPolicy 0
    (fun _ => .failure (.httpStatus 429)) (defaultConfigurationData "seed1234")
    0 rfl rfl

/-- Claim C5: a 200-status response whose body is an empty object is
rejected by getChatToken with the fixed empty-data error message (a
failure, not a success), createConversation throws the same error on an
empty body, and the EmptyResponse class is never retryable under the
default classification. -/
theorem empty_body_is_terminal_failure (reconnectId : Option String)
    (r : GCTResponse) (hdata : r.dataKeys = some []) :
    getChatTokenSettle reconnectId r =
      some (.rejectedError "Empty data received from getChatToken") ∧
    Settlement.isSuccess
      (.rejectedError "Empty data received from getChatToken") = false ∧
    createConversationSettle [] =
      .rejectedError "Empty data received from getChatToken" ∧
    (∀ b : Bool, defaultClassification b .emptyResponse = false) := by
  refine ⟨?_, rfl, rfl, fun b => rfl⟩
  simp [getChatTokenSettle, hdata]

/-- Witness for claim C5 at the concrete empty-object 200 response. -/
theorem empty_body_is_terminal_failure_witness :
    getChatTokenSettle none emptyObjectOkResponse =
      some (.rejectedError "Empty data received from getChatToken") ∧
    Settlement.isSuccess
      (.rejectedError "Empty data received from getChatToken") = false ∧
    createConversationSettle [] =
      .rejectedError "Empty data received from getChatToken" ∧
    (∀ b : Bool, defaultClassification b .emptyResponse = false) :=
  empty_body_is_terminal_failure none emptyObjectOkResponse rfl

/-- Claim C6 counterexample: the getChatConfig catch handler surfaces a
transport timeout as the raw transport error, not as the fixed
ClientHTTPTimeout message, so the claim that every operation normalizes
timeouts is false for getChatConfig at this concrete timeout error. -/
theorem getChatConfig_timeout_counterexample :
    getChatConfigCatch rawTimeoutTransportError =
      .rejectedRaw rawTimeoutTransportError ∧
    getChatConfigCatch rawTimeoutTransportError ≠
      .rejectedError HTTPTimeOutErrorMessage := by
  exact ⟨rfl, by decide⟩

/-- Claim C6 (amended): the operations that perform timeout normalization
(getChatToken, sessionInit, createConversation, sessionClose and
validateAuthChatRecord) surface a transport timeout as the single fixed
ClientHTTPTimeout message, which is distinct from the underlying transport
error text; getChatConfig (like getLcwFcsDetails) instead propagates the
raw transport error. -/
theorem timeout_normalized_fixed_message (e : AxiosError)
    (hcode : e.code = some axiosTimeoutErrorCode)
    (hmsg : e.message ≠ HTTPTimeOutErrorMessage) :
    getChatTokenCatch e = .rejectedError HTTPTimeOutErrorMessage ∧
    sessionInitCatch e = .rejectedError HTTPTimeOutErrorMessage ∧
    createConversationCatch e = .rejectedError HTTPTimeOutErrorMessage ∧
    sessionCloseCatch e = .rejectedError HTTPTimeOutErrorMessage ∧
    validateAuthChatRecordCatch e = .rejectedError HTTPTimeOutErrorMessage ∧
    HTTPTimeOutErrorMessage ≠ e.message ∧
    getChatConfigCatch e = .rejectedRaw e ∧
    getLcwFcsDetailsCatch e = .rejectedRaw e := by
  have ht : isExpectedAxiosError e axiosTimeoutErrorCode = true := by
    simp [isExpectedAxiosError, hcode]
  refine ⟨?_, ?_, ?_, ?_, ?_, fun h => hmsg h.symm, rfl, rfl⟩ <;>
    simp [getChatTokenCatch, sessionInitCatch, createConversationCatch,
      sessionCloseCatch, validateAuthChatRecordCatch, ht, hcode]

/-- Witness for claim C6 (amended) at the concrete raw transport timeout
error. -/
theorem timeout_normalized_fixed_message_witness :
    getChatTokenCatch rawTimeoutTransportError =
      .rejectedError HTTPTimeOutErrorMessage ∧
    sessionInitCatch rawTimeoutTransportError =
      .rejectedError HTTPTimeOutErrorMessage ∧
    createConversationCatch rawTimeoutTransportError =
      .rejectedError HTTPTimeOutErrorMessage ∧
    sessionCloseCatch rawTimeoutTransportError =
      .rejectedError HTTPTimeOutErrorMessage ∧
    validateAuthChatRecordCatch rawTimeoutTransportError =
      .rejectedError HTTPTimeOutErrorMessage ∧
    HTTPTimeOutErrorMessage ≠ rawTimeoutTransportError.message ∧
    getChatConfigCatch rawTimeoutTransportError =
      .rejectedRaw rawTimeoutTransportError ∧
    getLcwFcsDetailsCatch rawTimeoutTransportError =
      .rejectedRaw rawTimeoutTransportError :=
  timeout_normalized_fixed_message rawTimeoutTransportError rfl (by decide)

/-- Claim C7 (code bug): with the pinned axios ^1.8.2, an HTTP 404 failure
is an AxiosError named "AxiosError", so its toString is "AxiosError:
Request failed with status code 404"; the backward-compatibility carve-out
at SDK.ts line 968 compares against the legacy string "Error: Request
failed with status code 404" and therefore never matches a real 404-class
failure, and the call rejects with the raw error instead of resolving the
empty result the carve-out intends. -/
theorem validateAuthChatRecord_404_carveout_dead :
    errToString http404TransportError =
      "AxiosError: Request failed with status code 404" ∧
    validateAuthChatRecordCatch http404TransportError =
      .rejectedRaw http404TransportError ∧
    Settlement.isSuccess (.rejectedRaw http404TransportError) = false := by
  refine ⟨by decide, by decide, rfl⟩

/-- Claim C8 counterexample: with a concrete uuid stream whose class-load
output starts with aaaaaaaa and whose next fresh output starts with
bbbbbbbb, an instance constructed after module load carries the class-load
nonce aaaaaaaa, not the token a construction-time generation would
produce, so the claim that the nonce is seeded at SDK construction is
false at this input. -/
theorem authNonce_not_seeded_at_construction :
    readNonce (construct (moduleLoad uuidStreamC8) .omitted).1
      (construct (moduleLoad uuidStreamC8) .omitted).2 = "aaaaaaaa" ∧
    specConstructionSeededNonce (moduleLoad uuidStreamC8) uuidStreamC8 =
      "bbbbbbbb" ∧
    ("aaaaaaaa" : String) ≠ "bbbbbbbb" := by
  refine ⟨by decide, by decide, by decide⟩

/-- Claim C8 (amended): the authNonce is seeded once at class load as the
first 8 characters of the uuid generated there; every instance
constructed with the default (omitted) configuration starts with exactly
that class-load nonce, including a second instance constructed later, and
construction itself consumes no fresh uuid.  The first authenticated call
therefore already presents that nonce. -/
theorem authNonce_seeded_at_class_load (g : Nat → String) :
    readNonce (construct (moduleLoad g) .omitted).1
      (construct (moduleLoad g) .omitted).2 = firstEight (g 0) ∧
    (construct (moduleLoad g) .omitted).1.uuidIndex =
      (moduleLoad g).uuidIndex ∧
    readNonce
      (construct (construct (moduleLoad g) .omitted).1 .omitted).1
      (construct (construct (moduleLoad g) .omitted).1 .omitted).2 =
      firstEight (g 0) := by
  exact ⟨rfl, rfl, rfl⟩

/-- Claim C9: there are responses on which the getChatToken success
handler returns without settling the promise, so the caller waits
forever: a falsy body with no reconnectId (even at status 204), and a
falsy body with a reconnectId but a status other than 204. -/
theorem getChatToken_can_hang :
    getChatTokenSettle none noContentReconnectResponse = none ∧
    getChatTokenSettle (some "rc") falsyBodyOkResponse = none := by
  exact ⟨rfl, rfl⟩

/-- Claim C10: instances constructed with an omitted or empty
configuration alias the single shared static default configuration
object: both hold the default reference, both read the class-load nonce,
and a nonce rotation committed through one instance is observed by the
other on its next read. -/
theorem default_config_aliasing (g : Nat → String) (X : String)
    (c : ConfigOverrides) (hx : X.isEmpty = false) (hc : c.isEmpty = true) :
    (construct (moduleLoad g) .omitted).2.configRef =
      (moduleLoad g).defaultRef ∧
    (construct (moduleLoad g) (.given c)).2.configRef =
      (moduleLoad g).defaultRef ∧
    readNonce (moduleLoad g) (construct (moduleLoad g) .omitted).2 =
      firstEight (g 0) ∧
    readNonce (moduleLoad g) (construct (moduleLoad g) (.given c)).2 =
      firstEight (g 0) ∧
    readNonce
      (setAuthCodeNonce (moduleLoad g)
        (construct (moduleLoad g) .omitted).2
        (some { authcodenonce := some X, ocSessionId := none }))
      (construct (moduleLoad g) (.given c)).2 = X := by
  refine ⟨rfl, ?_, rfl, ?_, ?_⟩
  · simp [construct, hc]
  · simp [construct, hc, readNonce, readConfig, moduleLoad, firstEight,
      defaultConfigurationData]
  · simp [construct, hc, setAuthCodeNonce, hx, readNonce, readConfig,
      moduleLoad]

/-- Witness for claim C10 at the concrete uuid stream, a concrete rotated
nonce and the empty overrides object. -/
theorem default_config_aliasing_witness :
    (construct (moduleLoad uuidStreamC8) .omitted).2.configRef =
      (moduleLoad uuidStreamC8).defaultRef ∧
    (construct (moduleLoad uuidStreamC8) (.given emptyOverrides)).2.configRef =
      (moduleLoad uuidStreamC8).defaultRef ∧
    readNonce (moduleLoad uuidStreamC8)
      (construct (moduleLoad uuidStreamC8) .omitted).2 =
      firstEight (uuidStreamC8 0) ∧
    readNonce (moduleLoad uuidStreamC8)
      (construct (moduleLoad uuidStreamC8) (.given emptyOverrides)).2 =
      firstEight (uuidStreamC8 0) ∧
    readNonce
      (setAuthCodeNonce (moduleLoad uuidStreamC8)
        (construct (moduleLoad uuidStreamC8) .omitted).2
        (some { authcodenonce := some "rotated1", ocSessionId := none }))
      (construct (moduleLoad uuidStreamC8) (.given emptyOverrides)).2 =
      "rotated1" :=
  default_config_aliasing uuidStreamC8 "rotated1" emptyOverrides rfl rfl

end OmnichannelSDK
